import Mathlib

/-
Shallow embedding of the s2-ndvi repository (two Python source files,
src/s2-2a-10-ndvi.py and src/s2-2a-10m-ndvi.py) for verification.

Modelling conventions:
- numpy float32 samples are modelled by `FVal`: an exact rational for finite
  values plus the IEEE special values NaN and signed infinity.  Division by
  zero follows IEEE semantics (0/0 = NaN, x/0 = signed infinity), which is
  what numpy produces once `np.seterr(divide="ignore", invalid="ignore")`
  has suppressed error reporting.
- a numpy 2-D array is a list of rows (`Grid`); `IsRect g r c` says the
  array really has shape (r, c).  numpy broadcasting between two 2-D
  operands is embedded faithfully (`broadcastCompatible`, `bIdx`): on
  incompatible shapes numpy raises ValueError, otherwise the operation runs
  over the broadcast shape.
- `np.seterr` mutates process-wide state; that state (`NpErrState`) is
  threaded explicitly through `compute_ndvi` and `main`.
- the external collaborators are modelled at their call boundary:
  `glob.glob(f"{directory}/**/*{pattern}", recursive=True)` is a filter of
  the filesystem's traversal-ordered path list (`globMatch`); `gdal.Open`
  is an oracle `String → Option SrcDataset`; `gdal.GetDriverByName("GTiff")`
  availability is a Bool; the dataset written by `write_cog` is the record
  of every GDAL call the source makes on it (`GTiffDataset`).
-/

/-- One numpy floating-point sample: a finite rational, NaN, or a signed
infinity (`pos = true` for plus infinity). -/
inductive FVal where
  | fin (q : ℚ)
  | nan : FVal
  | inf (pos : Bool)
  deriving DecidableEq, Repr

/-- Whether a sample is a finite number (np.isfinite). -/
def FVal.isFinite : FVal → Bool
  | .fin _ => true
  | _ => false

/-- IEEE addition on samples (finite arithmetic exact over ℚ). -/
def FVal.add : FVal → FVal → FVal
  | .nan, _ => .nan
  | _, .nan => .nan
  | .fin a, .fin b => .fin (a + b)
  | .inf s, .fin _ => .inf s
  | .fin _, .inf s => .inf s
  | .inf s, .inf t => if s = t then .inf s else .nan

/-- IEEE subtraction on samples. -/
def FVal.sub : FVal → FVal → FVal
  | .nan, _ => .nan
  | _, .nan => .nan
  | .fin a, .fin b => .fin (a - b)
  | .inf s, .fin _ => .inf s
  | .fin _, .inf s => .inf (!s)
  | .inf s, .inf t => if s = t then .nan else .inf s

/-- IEEE division on samples: 0/0 is NaN, nonzero/0 is a signed infinity
(the rational 0 denominator stands for +0), finite/finite is exact. -/
def FVal.div : FVal → FVal → FVal
  | .nan, _ => .nan
  | _, .nan => .nan
  | .fin a, .fin b =>
      if b = 0 then (if a = 0 then .nan else .inf (decide (0 < a)))
      else .fin (a / b)
  | .inf s, .fin b => .inf (s == decide (0 ≤ b))
  | .fin _, .inf _ => .fin 0
  | .inf _, .inf _ => .nan

/-- A 2-D numpy array: a list of rows of samples. -/
abbrev Grid : Type := List (List FVal)

/-- Decidable equality for Except results, used to evaluate the embedding
on concrete inputs. -/
instance {ε α : Type} [DecidableEq ε] [DecidableEq α] : DecidableEq (Except ε α) := fun a b =>
  match a, b with
  | Except.error e, Except.error f =>
      if h : e = f then isTrue (by rw [h]) else isFalse (by intro hc; cases hc; exact h rfl)
  | Except.error _, Except.ok _ => isFalse (by intro hc; cases hc)
  | Except.ok _, Except.error _ => isFalse (by intro hc; cases hc)
  | Except.ok x, Except.ok y =>
      if h : x = y then isTrue (by rw [h]) else isFalse (by intro hc; cases hc; exact h rfl)

/-- Number of rows (first component of ndarray.shape). -/
def nRows (g : Grid) : Nat := g.length

/-- Number of columns (second component of ndarray.shape). -/
def nCols (g : Grid) : Nat := (g.headD []).length

/-- Pixel access g[i, j] (out-of-range reads default, used only in range). -/
def getPix (g : Grid) (i j : Nat) : FVal := (g.getD i []).getD j .nan

/-- `g` is a well-formed 2-D array of shape (r, c). -/
def IsRect (g : Grid) (r c : Nat) : Prop :=
  g.length = r ∧ ∀ row ∈ g, row.length = c

/-- numpy broadcast compatibility of two 2-D shapes. -/
def broadcastCompatible (r1 c1 r2 c2 : Nat) : Bool :=
  (r1 == r2 || r1 == 1 || r2 == 1) && (c1 == c2 || c1 == 1 || c2 == 1)

/-- Index into a broadcast dimension: a length-1 axis is stretched. -/
def bIdx (n i : Nat) : Nat := if n == 1 then 0 else i

/-- One numpy error-handling mode (np.seterr argument values). -/
inductive ErrMode where
  | ignore
  | warn
  | raiseErr
  | call
  | printMode
  | log
  deriving DecidableEq, Repr

/-- The process-wide numpy error-reporting configuration mutated by
np.seterr: one mode per error class. -/
structure NpErrState where
  divide : ErrMode
  invalid : ErrMode
  over : ErrMode
  under : ErrMode
  deriving DecidableEq, Repr

/-- numpy's startup defaults (all classes report via warnings). -/
def npDefault : NpErrState := ⟨.warn, .warn, .warn, .warn⟩

/-- The six geotransform coefficients returned by GetGeoTransform. -/
abbrev GeoTransform : Type := ℚ × ℚ × ℚ × ℚ × ℚ × ℚ

/-- What gdal.Open exposes of a source raster: band 1 decoded to float32
(absorbed into the oracle, decoding being external), the geotransform and
the projection string. -/
structure SrcDataset where
  band1 : Grid
  transform : GeoTransform
  projection : String

/-- GDAL data type selector; the source passes gdal.GDT_Float32. -/
inductive GDALDataType where
  | GDT_Float32
  | GDT_Byte
  | GDT_UInt16
  deriving DecidableEq, Repr

/-- Record of the dataset produced by write_cog: every GDAL call the source
makes on the created dataset and its band is captured as a field. -/
structure GTiffDataset where
  path : String
  xsize : Nat
  ysize : Nat
  nBands : Nat
  dtype : GDALDataType
  creationOptions : List String
  geotransform : GeoTransform
  projection : String
  bandData : Grid
  bandDescription : String
  noDataValue : ℚ

/-- Model of glob matching for the call
glob.glob(f"{directory}/**/*{pattern}", recursive=True): a path matches
when it lies strictly under `directory` and its name ends with `pattern`
(the recursive ** matches zero or more intermediate directories, * the rest
of the final component).  Matching is done on character lists. -/
def globMatch (directory pattern p : String) : Bool :=
  (directory ++ "/").data.isPrefixOf p.data && pattern.data.isSuffixOf p.data

namespace Ndvi

/-- find_band from src/s2-2a-10-ndvi.py: glob for the pattern under the
directory (modelled as filtering the traversal-ordered filesystem listing
`fs`), return the matches if any, otherwise raise FileNotFoundError. -/
def find_band (fs : List String) (directory pattern : String) :
    Except String (List String) :=
  let file_path := fs.filter (globMatch directory pattern)
  if file_path.isEmpty then
    Except.error ("Band " ++ pattern ++ " not found in " ++ directory)
  else
    Except.ok file_path

/-- read_band from src/s2-2a-10-ndvi.py: gdal.Open the path, decode band 1
as float32, take the geotransform and projection, close the dataset.  When
Open returns None the subsequent attribute access fails (AttributeError). -/
def read_band (gdalOpen : String → Option SrcDataset) (band_path : String) :
    Except String (Grid × GeoTransform × String) :=
  match gdalOpen band_path with
  | none => Except.error "AttributeError: NoneType has no attribute GetRasterBand"
  | some ds => Except.ok (ds.band1, ds.transform, ds.projection)

/-- compute_ndvi from src/s2-2a-10-ndvi.py: first np.seterr(divide="ignore",
invalid="ignore") mutates the process-wide error state, then
(nir_band - red_band) / (nir_band + red_band) is evaluated with numpy
broadcasting; with both classes ignored the divisions never fault and
degenerate pixels become NaN or infinity.  Incompatible shapes raise
numpy's ValueError. -/
def compute_ndvi (s : NpErrState) (red_band nir_band : Grid) :
    NpErrState × Except String Grid :=
  let s2 : NpErrState := { s with divide := ErrMode.ignore, invalid := ErrMode.ignore }
  let r1 := nRows red_band
  let c1 := nCols red_band
  let r2 := nRows nir_band
  let c2 := nCols nir_band
  if broadcastCompatible r1 c1 r2 c2 then
    let ndvi : Grid := (List.range (max r1 r2)).map fun i =>
      (List.range (max c1 c2)).map fun j =>
        let r := getPix red_band (bIdx r1 i) (bIdx c1 j)
        let n := getPix nir_band (bIdx r2 i) (bIdx c2 j)
        FVal.div (FVal.sub n r) (FVal.add n r)
    (s2, Except.ok ndvi)
  else
    (s2, Except.error "ValueError: operands could not be broadcast together")

/-- write_cog from src/s2-2a-10-ndvi.py: fetch the GTiff driver (RuntimeError
when unavailable), Create a 1-band GDT_Float32 dataset of the grid's shape
with the tiling/compression options, set geotransform and projection, write
the array unchanged, set the band description and the no-data value. -/
def write_cog (driverAvailable : Bool) (ndvi : Grid) (transform : GeoTransform)
    (projection : String) (output_cog_path : String) :
    Except String GTiffDataset :=
  if driverAvailable then
    let rows := nRows ndvi
    let cols := nCols ndvi
    let options := ["TILED=YES", "COMPRESS=LZW", "BLOCKXSIZE=512", "BLOCKYSIZE=512"]
    Except.ok
      { path := output_cog_path
        xsize := cols
        ysize := rows
        nBands := 1
        dtype := GDALDataType.GDT_Float32
        creationOptions := options
        geotransform := transform
        projection := projection
        bandData := ndvi
        bandDescription := "NDVI"
        noDataValue := -9999 }
  else
    Except.error "GDAL driver for GTiff not found"

/-- main from src/s2-2a-10-ndvi.py: locate both bands, take the first match
of each, read both (keeping only the red band's spatial metadata), compute
the index, write the output. -/
def main (fs : List String) (gdalOpen : String → Option SrcDataset)
    (driverAvailable : Bool) (s : NpErrState)
    (safe_folder output_cog_path : String) :
    NpErrState × Except String GTiffDataset :=
  match find_band fs safe_folder "B04_10m.jp2" with
  | Except.error e => (s, Except.error e)
  | Except.ok red_band_paths =>
  match find_band fs safe_folder "B08_10m.jp2" with
  | Except.error e => (s, Except.error e)
  | Except.ok nir_band_paths =>
  match read_band gdalOpen (red_band_paths.headD "") with
  | Except.error e => (s, Except.error e)
  | Except.ok (red_band, transform, projection) =>
  match read_band gdalOpen (nir_band_paths.headD "") with
  | Except.error e => (s, Except.error e)
  | Except.ok (nir_band, _, _) =>
  match compute_ndvi s red_band nir_band with
  | (s2, Except.error e) => (s2, Except.error e)
  | (s2, Except.ok ndvi) =>
      (s2, write_cog driverAvailable ndvi transform projection output_cog_path)

end Ndvi

namespace NdviCli

/-- find_band from src/s2-2a-10m-ndvi.py: identical body to the other
variant (only type annotations differ in the source). -/
def find_band (fs : List String) (directory pattern : String) :
    Except String (List String) :=
  let file_path := fs.filter (globMatch directory pattern)
  if file_path.isEmpty then
    Except.error ("Band " ++ pattern ++ " not found in " ++ directory)
  else
    Except.ok file_path

/-- read_band from src/s2-2a-10m-ndvi.py: identical body to the other
variant. -/
def read_band (gdalOpen : String → Option SrcDataset) (band_path : String) :
    Except String (Grid × GeoTransform × String) :=
  match gdalOpen band_path with
  | none => Except.error "AttributeError: NoneType has no attribute GetRasterBand"
  | some ds => Except.ok (ds.band1, ds.transform, ds.projection)

/-- compute_ndvi from src/s2-2a-10m-ndvi.py: identical body to the other
variant. -/
def compute_ndvi (s : NpErrState) (red_band nir_band : Grid) :
    NpErrState × Except String Grid :=
  let s2 : NpErrState := { s with divide := ErrMode.ignore, invalid := ErrMode.ignore }
  let r1 := nRows red_band
  let c1 := nCols red_band
  let r2 := nRows nir_band
  let c2 := nCols nir_band
  if broadcastCompatible r1 c1 r2 c2 then
    let ndvi : Grid := (List.range (max r1 r2)).map fun i =>
      (List.range (max c1 c2)).map fun j =>
        let r := getPix red_band (bIdx r1 i) (bIdx c1 j)
        let n := getPix nir_band (bIdx r2 i) (bIdx c2 j)
        FVal.div (FVal.sub n r) (FVal.add n r)
    (s2, Except.ok ndvi)
  else
    (s2, Except.error "ValueError: operands could not be broadcast together")

/-- write_cog from src/s2-2a-10m-ndvi.py: identical body to the other
variant. -/
def write_cog (driverAvailable : Bool) (ndvi : Grid) (transform : GeoTransform)
    (projection : String) (output_cog_path : String) :
    Except String GTiffDataset :=
  if driverAvailable then
    let rows := nRows ndvi
    let cols := nCols ndvi
    let options := ["TILED=YES", "COMPRESS=LZW", "BLOCKXSIZE=512", "BLOCKYSIZE=512"]
    Except.ok
      { path := output_cog_path
        xsize := cols
        ysize := rows
        nBands := 1
        dtype := GDALDataType.GDT_Float32
        creationOptions := options
        geotransform := transform
        projection := projection
        bandData := ndvi
        bandDescription := "NDVI"
        noDataValue := -9999 }
  else
    Except.error "GDAL driver for GTiff not found"

/-- main from src/s2-2a-10m-ndvi.py: rebinds the output path by appending
the fixed filename s2-2a-10m-ndvi.tif to the output directory, then
locates, reads, computes and writes exactly as the other variant.  The
click command surface (existence checks on the two arguments) is the
external argument parser, outside the core. -/
def main (fs : List String) (gdalOpen : String → Option SrcDataset)
    (driverAvailable : Bool) (s : NpErrState)
    (path_to_s2_folder output_cog_path : String) :
    NpErrState × Except String GTiffDataset :=
  let output_cog_path := output_cog_path ++ "/s2-2a-10m-ndvi.tif"
  match find_band fs path_to_s2_folder "B04_10m.jp2" with
  | Except.error e => (s, Except.error e)
  | Except.ok red_band_paths =>
  match find_band fs path_to_s2_folder "B08_10m.jp2" with
  | Except.error e => (s, Except.error e)
  | Except.ok nir_band_paths =>
  match read_band gdalOpen (red_band_paths.headD "") with
  | Except.error e => (s, Except.error e)
  | Except.ok (red_band, transform, projection) =>
  match read_band gdalOpen (nir_band_paths.headD "") with
  | Except.error e => (s, Except.error e)
  | Except.ok (nir_band, _, _) =>
  match compute_ndvi s red_band nir_band with
  | (s2, Except.error e) => (s2, Except.error e)
  | (s2, Except.ok ndvi) =>
      (s2, write_cog driverAvailable ndvi transform projection output_cog_path)

end NdviCli

/-- Reading index i of a mapped range list yields the function value. -/
theorem getD_range_map {α : Type} (f : Nat → α) (n i : Nat) (d : α) (h : i < n) :
    ((List.range n).map f).getD i d = f i := by
  rw [List.getD_eq_getElem?_getD, List.getElem?_map, List.getElem?_range h]
  rfl

/-- A broadcast index inside the bounds of its axis is the identity. -/
theorem bIdx_of_lt {n i : Nat} (h : i < n) : bIdx n i = i := by
  unfold bIdx
  split
  · next hb =>
      have hn : n = 1 := by simpa using hb
      omega
  · rfl

/-- A rectangular grid with a positive row count has nCols equal to its
declared column count. -/
theorem nCols_of_isRect {g : Grid} {r c : Nat} (h : IsRect g r c) (hr : 0 < r) :
    nCols g = c := by
  obtain ⟨hlen, hrow⟩ := h
  cases g with
  | nil => simp at hlen; omega
  | cons a t => exact hrow a (List.mem_cons_self a t)

/-- Shared shape/element characterisation of compute_ndvi on two grids of
the same rectangular shape: the call succeeds (division errors being
suppressed by the seterr call), the result has the common shape, and each
pixel is the IEEE value of (nir - red) / (nir + red). -/
theorem compute_ndvi_spec (s : NpErrState) (rows cols : Nat) (red nir : Grid)
    (h1 : IsRect red rows cols) (h2 : IsRect nir rows cols) :
    ∃ g : Grid, (Ndvi.compute_ndvi s red nir).2 = Except.ok g ∧ IsRect g rows cols ∧
      ∀ i j, i < rows → j < cols →
        getPix g i j =
          FVal.div (FVal.sub (getPix nir i j) (getPix red i j))
                   (FVal.add (getPix nir i j) (getPix red i j)) := by
  rcases Nat.eq_zero_or_pos rows with hz | hpos
  · subst hz
    have hred : red = [] := List.length_eq_zero.mp h1.1
    have hnir : nir = [] := List.length_eq_zero.mp h2.1
    subst hred; subst hnir
    refine ⟨[], ?_, ⟨rfl, by simp⟩, fun i j hi _ => absurd hi (Nat.not_lt_zero i)⟩
    norm_num [Ndvi.compute_ndvi, nRows, nCols, broadcastCompatible]
  · have hr1 : nRows red = rows := h1.1
    have hr2 : nRows nir = rows := h2.1
    have hc1 : nCols red = cols := nCols_of_isRect h1 hpos
    have hc2 : nCols nir = cols := nCols_of_isRect h2 hpos
    have hbc : broadcastCompatible rows cols rows cols = true := by
      simp [broadcastCompatible]
    have key : (Ndvi.compute_ndvi s red nir).2 = Except.ok ((List.range rows).map fun i =>
        (List.range cols).map fun j =>
          FVal.div (FVal.sub (getPix nir (bIdx rows i) (bIdx cols j))
                             (getPix red (bIdx rows i) (bIdx cols j)))
                   (FVal.add (getPix nir (bIdx rows i) (bIdx cols j))
                             (getPix red (bIdx rows i) (bIdx cols j)))) := by
      simp only [Ndvi.compute_ndvi, hr1, hr2, hc1, hc2, Nat.max_self]
      rw [if_pos hbc]
    refine ⟨_, key, ⟨by simp, ?_⟩, ?_⟩
    · intro row hrow
      obtain ⟨i, _, hi⟩ := List.mem_map.mp hrow
      simp [← hi]
    · intro i j hi hj
      unfold getPix
      rw [getD_range_map _ rows i _ hi, getD_range_map _ cols j _ hj,
        bIdx_of_lt hi, bIdx_of_lt hj]

/-- Claim C1: for equal-dimension grids red and nir with every sample a
finite rational and no pixel whose red+nir sum is zero, compute_ndvi of
src/s2-2a-10-ndvi.py returns a grid of the same dimensions whose every
element is exactly (nir - red) / (nir + red); when additionally every
sample of both inputs is non-negative, every output element lies in
[-1, 1]. -/
theorem c1_compute_ndvi_elementwise (s : NpErrState) (rows cols : Nat)
    (red nir : Grid) (ra rb : Nat → Nat → ℚ)
    (hredr : IsRect red rows cols) (hnirr : IsRect nir rows cols)
    (hred : ∀ i j, i < rows → j < cols → getPix red i j = FVal.fin (ra i j))
    (hnir : ∀ i j, i < rows → j < cols → getPix nir i j = FVal.fin (rb i j))
    (hnz : ∀ i j, i < rows → j < cols → ra i j + rb i j ≠ 0) :
    ∃ g : Grid, (Ndvi.compute_ndvi s red nir).2 = Except.ok g ∧
      IsRect g rows cols ∧
      (∀ i j, i < rows → j < cols →
        getPix g i j = FVal.fin ((rb i j - ra i j) / (rb i j + ra i j))) ∧
      ((∀ i j, i < rows → j < cols → 0 ≤ ra i j ∧ 0 ≤ rb i j) →
        ∀ i j, i < rows → j < cols →
          ∃ q : ℚ, getPix g i j = FVal.fin q ∧ -1 ≤ q ∧ q ≤ 1) := by
  obtain ⟨g, hg, hgr, hgp⟩ := compute_ndvi_spec s rows cols red nir hredr hnirr
  have helem : ∀ i j, i < rows → j < cols →
      getPix g i j = FVal.fin ((rb i j - ra i j) / (rb i j + ra i j)) := by
    intro i j hi hj
    have hsum : rb i j + ra i j ≠ 0 := by
      have := hnz i j hi hj
      intro hc
      exact this (by linarith)
    rw [hgp i j hi hj, hred i j hi hj, hnir i j hi hj]
    simp [FVal.sub, FVal.add, FVal.div, hsum]
  refine ⟨g, hg, hgr, helem, ?_⟩
  intro hnn i j hi hj
  obtain ⟨ha, hb⟩ := hnn i j hi hj
  have hsum : rb i j + ra i j ≠ 0 := by
    have := hnz i j hi hj
    intro hc
    exact this (by linarith)
  have hpos : 0 < rb i j + ra i j := (add_nonneg hb ha).lt_of_ne (Ne.symm hsum)
  refine ⟨(rb i j - ra i j) / (rb i j + ra i j), helem i j hi hj, ?_, ?_⟩
  · rw [le_div_iff₀ hpos]
    linarith
  · rw [div_le_one hpos]
    linarith

/-- Claim C1 witness: a concrete 1-by-1 pair (red 100, nir 300) satisfies
the hypotheses and the resulting pixel is 1/2, inside [-1, 1]. -/
theorem c1_compute_ndvi_elementwise_witness :
    ∃ g : Grid, (Ndvi.compute_ndvi npDefault [[FVal.fin 100]] [[FVal.fin 300]]).2 =
        Except.ok g ∧
      IsRect g 1 1 ∧
      (∀ i j, i < 1 → j < 1 →
        getPix g i j = FVal.fin (((fun _ _ => (300 : ℚ)) i j - (fun _ _ => (100 : ℚ)) i j) /
          ((fun _ _ => (300 : ℚ)) i j + (fun _ _ => (100 : ℚ)) i j))) ∧
      ((∀ i j, i < 1 → j < 1 →
          0 ≤ (fun _ _ => (100 : ℚ)) i j ∧ 0 ≤ (fun _ _ => (300 : ℚ)) i j) →
        ∀ i j, i < 1 → j < 1 →
          ∃ q : ℚ, getPix g i j = FVal.fin q ∧ -1 ≤ q ∧ q ≤ 1) :=
  c1_compute_ndvi_elementwise npDefault 1 1 [[FVal.fin 100]] [[FVal.fin 300]]
    (fun _ _ => 100) (fun _ _ => 300)
    ⟨rfl, by intro row h; simp at h; subst h; rfl⟩
    ⟨rfl, by intro row h; simp at h; subst h; rfl⟩
    (by intro i j hi hj
        rw [Nat.lt_one_iff.mp hi, Nat.lt_one_iff.mp hj]
        rfl)
    (by intro i j hi hj
        rw [Nat.lt_one_iff.mp hi, Nat.lt_one_iff.mp hj]
        rfl)
    (by intro i j hi hj
        norm_num)

/-- Claim C4: on equal-dimension rectangular inputs compute_ndvi never
fails (no runtime fault is raised; the call returns ok on every such
pair), and every pixel whose two finite samples sum to zero yields a
non-finite value in the returned grid. -/
theorem c4_zero_sum_pixels_nonfinite (s : NpErrState) (rows cols : Nat)
    (red nir : Grid)
    (hredr : IsRect red rows cols) (hnirr : IsRect nir rows cols) :
    ∃ g : Grid, (Ndvi.compute_ndvi s red nir).2 = Except.ok g ∧
      ∀ i j a b, i < rows → j < cols →
        getPix red i j = FVal.fin a → getPix nir i j = FVal.fin b →
        a + b = 0 → (getPix g i j).isFinite = false := by
  obtain ⟨g, hg, _, hgp⟩ := compute_ndvi_spec s rows cols red nir hredr hnirr
  refine ⟨g, hg, ?_⟩
  intro i j a b hi hj hra hrb hsum
  have hba : b + a = 0 := by linarith
  rw [hgp i j hi hj, hra, hrb]
  simp only [FVal.sub, FVal.add, FVal.div, hba]
  by_cases hz : b - a = 0 <;> simp [hz, FVal.isFinite]

/-- Claim C4 witness: red 1 and nir -1 at the only pixel sum to zero and
the output pixel (-inf here) is non-finite. -/
theorem c4_zero_sum_pixels_nonfinite_witness :
    ∃ g : Grid, (Ndvi.compute_ndvi npDefault [[FVal.fin 1]] [[FVal.fin (-1)]]).2 =
        Except.ok g ∧
      ∀ i j a b, i < 1 → j < 1 →
        getPix [[FVal.fin 1]] i j = FVal.fin a →
        getPix [[FVal.fin (-1)]] i j = FVal.fin b →
        a + b = 0 → (getPix g i j).isFinite = false :=
  c4_zero_sum_pixels_nonfinite npDefault 1 1 [[FVal.fin 1]] [[FVal.fin (-1)]]
    ⟨rfl, by intro row h; simp at h; subst h; rfl⟩
    ⟨rfl, by intro row h; simp at h; subst h; rfl⟩

/-- Claim C9: compute_ndvi's np.seterr call sets the process-wide divide
and invalid error modes to ignore for every incoming configuration, and
that configuration is still in force in the state the call returns (it is
not restored on exit); the over and under modes are untouched.  The input
grids are immutable values of the embedding, matching the source, which
never writes to its arguments. -/
theorem c9_seterr_global_mutation (s : NpErrState) (red nir : Grid) :
    (Ndvi.compute_ndvi s red nir).1.divide = ErrMode.ignore ∧
    (Ndvi.compute_ndvi s red nir).1.invalid = ErrMode.ignore ∧
    (Ndvi.compute_ndvi s red nir).1.over = s.over ∧
    (Ndvi.compute_ndvi s red nir).1.under = s.under ∧
    ((s.divide = ErrMode.warn ∨ s.invalid = ErrMode.warn) →
      (Ndvi.compute_ndvi s red nir).1 ≠ s) := by
  have hfst : (Ndvi.compute_ndvi s red nir).1 =
      { s with divide := ErrMode.ignore, invalid := ErrMode.ignore } := by
    cases hbc : broadcastCompatible (nRows red) (nCols red) (nRows nir) (nCols nir) <;>
      simp [Ndvi.compute_ndvi, hbc]
  rw [hfst]
  refine ⟨rfl, rfl, rfl, rfl, ?_⟩
  rintro (hd | hd) hc <;> rw [← hc] at hd <;> simp at hd

/-- Claim C9 witness: starting from numpy's default configuration the
returned state has divide and invalid ignored, is unchanged in over and
under, and differs from the initial state. -/
theorem c9_seterr_global_mutation_witness :
    (Ndvi.compute_ndvi npDefault [[FVal.fin 1]] [[FVal.fin 2]]).1.divide = ErrMode.ignore ∧
    (Ndvi.compute_ndvi npDefault [[FVal.fin 1]] [[FVal.fin 2]]).1.invalid = ErrMode.ignore ∧
    (Ndvi.compute_ndvi npDefault [[FVal.fin 1]] [[FVal.fin 2]]).1.over = npDefault.over ∧
    (Ndvi.compute_ndvi npDefault [[FVal.fin 1]] [[FVal.fin 2]]).1.under = npDefault.under ∧
    (Ndvi.compute_ndvi npDefault [[FVal.fin 1]] [[FVal.fin 2]]).1 ≠ npDefault :=
  ⟨(c9_seterr_global_mutation npDefault [[FVal.fin 1]] [[FVal.fin 2]]).1,
   (c9_seterr_global_mutation npDefault [[FVal.fin 1]] [[FVal.fin 2]]).2.1,
   (c9_seterr_global_mutation npDefault [[FVal.fin 1]] [[FVal.fin 2]]).2.2.1,
   (c9_seterr_global_mutation npDefault [[FVal.fin 1]] [[FVal.fin 2]]).2.2.2.1,
   (c9_seterr_global_mutation npDefault [[FVal.fin 1]] [[FVal.fin 2]]).2.2.2.2 (Or.inl rfl)⟩

example : (Ndvi.compute_ndvi npDefault [[FVal.fin 0]] [[FVal.fin 0]]).2 =
    Except.ok [[FVal.nan]] := by
  norm_num [Ndvi.compute_ndvi, nRows, nCols, broadcastCompatible, getPix, bIdx,
    FVal.div, FVal.sub, FVal.add, List.range_succ]

example : (Ndvi.compute_ndvi npDefault [[FVal.fin 100]] [[FVal.fin 300]]).2 =
    Except.ok [[FVal.fin (1/2)]] := by
  norm_num [Ndvi.compute_ndvi, nRows, nCols, broadcastCompatible, getPix, bIdx,
    FVal.div, FVal.sub, FVal.add, List.range_succ]

example : (Ndvi.find_band ["d/b/X_B04_10m.jp2", "d/a/X_B04_10m.jp2"] "d" "B04_10m.jp2") =
    Except.ok ["d/b/X_B04_10m.jp2", "d/a/X_B04_10m.jp2"] := by decide

/-- Claim C5: write_cog (GTiff driver available, path creatable) produces a
single-band GDT_Float32 dataset created with TILED=YES, 512x512 block size
and LZW compression, the supplied geotransform and projection applied
verbatim, band description NDVI and -9999 declared as the band's no-data
value, sized by the grid's shape. -/
theorem c5_write_cog_metadata (ndvi : Grid) (transform : GeoTransform)
    (projection output_cog_path : String) :
    ∃ ds : GTiffDataset,
      Ndvi.write_cog true ndvi transform projection output_cog_path = Except.ok ds ∧
      ds.nBands = 1 ∧
      ds.dtype = GDALDataType.GDT_Float32 ∧
      ds.creationOptions = ["TILED=YES", "COMPRESS=LZW", "BLOCKXSIZE=512", "BLOCKYSIZE=512"] ∧
      ds.geotransform = transform ∧
      ds.projection = projection ∧
      ds.bandDescription = "NDVI" ∧
      ds.noDataValue = -9999 ∧
      ds.xsize = nCols ndvi ∧
      ds.ysize = nRows ndvi ∧
      ds.path = output_cog_path :=
  ⟨_, rfl, rfl, rfl, rfl, rfl, rfl, rfl, rfl, rfl, rfl, rfl⟩

/-- Claim C2 is refuted by the code: for the zero-sum pixel of the 1-by-1
inputs red = [[0]] and nir = [[0]] the computed sample is NaN, and
write_cog persists that NaN unchanged in the written band while only
declaring -9999 as no-data metadata; the persisted value is not the
sentinel. -/
theorem c2_nan_persisted_not_sentinel :
    (Ndvi.compute_ndvi npDefault [[FVal.fin 0]] [[FVal.fin 0]]).2 =
      Except.ok [[FVal.nan]] ∧
    ∃ ds : GTiffDataset,
      Ndvi.write_cog true [[FVal.nan]] (0, 10, 0, 0, 0, -10) "EPSG:32633" "ndvi.tif" =
        Except.ok ds ∧
      getPix ds.bandData 0 0 = FVal.nan ∧
      ds.noDataValue = -9999 ∧
      getPix ds.bandData 0 0 ≠ FVal.fin (-9999) := by
  constructor
  · norm_num [Ndvi.compute_ndvi, nRows, nCols, broadcastCompatible, getPix, bIdx,
      FVal.div, FVal.sub, FVal.add, List.range_succ]
  · refine ⟨_, rfl, rfl, rfl, by simp [getPix]⟩

/-- Claim C3 is refuted by the code: on the mismatched shapes (1, 2) and
(2, 1) compute_ndvi does not fail; numpy broadcasting silently produces a
2-by-2 result grid. -/
theorem c3_shape_mismatch_not_rejected :
    (Ndvi.compute_ndvi npDefault [[FVal.fin 1, FVal.fin 2]]
        [[FVal.fin 3], [FVal.fin 4]]).2 =
      Except.ok [[FVal.fin (1/2), FVal.fin (1/5)], [FVal.fin (3/5), FVal.fin (1/3)]] ∧
    nRows [[FVal.fin (1/2), FVal.fin (1/5)], [FVal.fin (3/5), FVal.fin (1/3)]] = 2 ∧
    nCols [[FVal.fin (1/2), FVal.fin (1/5)], [FVal.fin (3/5), FVal.fin (1/3)]] = 2 := by
  refine ⟨?_, rfl, rfl⟩
  norm_num [Ndvi.compute_ndvi, nRows, nCols, broadcastCompatible, getPix, bIdx,
    FVal.div, FVal.sub, FVal.add, List.range_succ]

/-- Claim C6: when no file matches the pattern under the directory,
find_band fails with an error whose message names both the pattern and the
directory searched, and never returns a result. -/
theorem c6_find_band_no_match (fs : List String) (directory pattern : String)
    (h : fs.filter (globMatch directory pattern) = []) :
    ∃ msg : String,
      Ndvi.find_band fs directory pattern = Except.error msg ∧
      (∃ u v, msg = u ++ pattern ++ v) ∧
      (∃ u v, msg = u ++ directory ++ v) ∧
      ∀ l, Ndvi.find_band fs directory pattern ≠ Except.ok l := by
  have hfb : Ndvi.find_band fs directory pattern =
      Except.error ("Band " ++ pattern ++ " not found in " ++ directory) := by
    unfold Ndvi.find_band
    rw [h]
    rfl
  refine ⟨_, hfb, ⟨"Band ", " not found in " ++ directory, ?_⟩,
    ⟨"Band " ++ pattern ++ " not found in ", "", ?_⟩, ?_⟩
  · exact String.append_assoc _ _ _
  · rw [String.append_empty]
  · intro l hc
    rw [hfb] at hc
    exact Except.noConfusion hc

/-- Claim C6 witness: a tree holding only a B08 file has no B04 match, so
find_band fails naming pattern and directory. -/
theorem c6_find_band_no_match_witness :
    (["scene/a/T1_B08_10m.jp2"].filter (globMatch "scene" "B04_10m.jp2") = []) ∧
    (∃ msg : String,
      Ndvi.find_band ["scene/a/T1_B08_10m.jp2"] "scene" "B04_10m.jp2" =
        Except.error msg ∧
      (∃ u v, msg = u ++ "B04_10m.jp2" ++ v) ∧
      (∃ u v, msg = u ++ "scene" ++ v) ∧
      ∀ l, Ndvi.find_band ["scene/a/T1_B08_10m.jp2"] "scene" "B04_10m.jp2" ≠
        Except.ok l) :=
  ⟨by decide, c6_find_band_no_match _ _ _ (by decide)⟩

/-- Claim C7 counterexample: with the filesystem traversal yielding the
match under b/ before the match under a/, find_band returns the two paths
in that traversal order, which is not sorted; the claim that the result is
in sorted order is false on the code. -/
theorem c7_counterexample_unsorted :
    Ndvi.find_band ["d/b/X_B04_10m.jp2", "d/a/X_B04_10m.jp2"] "d" "B04_10m.jp2" =
      Except.ok ["d/b/X_B04_10m.jp2", "d/a/X_B04_10m.jp2"] ∧
    ¬ List.Sorted (fun a b : String => a ≤ b)
        ["d/b/X_B04_10m.jp2", "d/a/X_B04_10m.jp2"] := by
  constructor
  · decide
  · intro hs
    have hle : ("d/b/X_B04_10m.jp2" : String) ≤ "d/a/X_B04_10m.jp2" :=
      List.rel_of_sorted_cons hs _ (List.mem_singleton.mpr rfl)
    rw [String.le_iff_toList_le] at hle
    revert hle
    decide

/-- Claim C7 as amended: find_band returns all matching paths, in the
deterministic order of the filesystem traversal listing (not necessarily
sorted). -/
theorem c7_find_band_all_matches_traversal_order (fs : List String)
    (directory pattern : String)
    (h : fs.filter (globMatch directory pattern) ≠ []) :
    Ndvi.find_band fs directory pattern =
      Except.ok (fs.filter (globMatch directory pattern)) := by
  unfold Ndvi.find_band
  rw [if_neg]
  simpa using h

/-- Claim C7 witness: two matching files in nested directories are both
returned, in traversal order. -/
theorem c7_find_band_all_matches_witness :
    (["d/b/X_B04_10m.jp2", "d/a/X_B04_10m.jp2"].filter
      (globMatch "d" "B04_10m.jp2") ≠ []) ∧
    Ndvi.find_band ["d/b/X_B04_10m.jp2", "d/a/X_B04_10m.jp2"] "d" "B04_10m.jp2" =
      Except.ok (["d/b/X_B04_10m.jp2", "d/a/X_B04_10m.jp2"].filter
        (globMatch "d" "B04_10m.jp2")) :=
  ⟨by decide, c7_find_band_all_matches_traversal_order _ _ _ (by decide)⟩

/-- Claim C8: when both band patterns match, main reads the first element
of each located-path list; the dataset handed to the writer carries exactly
the red band's geotransform and projection and is fully determined by the
two pixel grids, the red band's spatial metadata and the output path — the
near-infrared band's geotransform and projection do not occur in it. -/
theorem c8_main_uses_red_metadata (fs : List String)
    (gdalOpen : String → Option SrcDataset) (s : NpErrState)
    (rps nps : List String) (rds nds : SrcDataset) (g : Grid)
    (safe_folder output_cog_path : String)
    (hrp : Ndvi.find_band fs safe_folder "B04_10m.jp2" = Except.ok rps)
    (hnp : Ndvi.find_band fs safe_folder "B08_10m.jp2" = Except.ok nps)
    (hro : gdalOpen (rps.headD "") = some rds)
    (hno : gdalOpen (nps.headD "") = some nds)
    (hc : (Ndvi.compute_ndvi s rds.band1 nds.band1).2 = Except.ok g) :
    (Ndvi.main fs gdalOpen true s safe_folder output_cog_path).2 =
      Except.ok
        { path := output_cog_path
          xsize := nCols g
          ysize := nRows g
          nBands := 1
          dtype := GDALDataType.GDT_Float32
          creationOptions := ["TILED=YES", "COMPRESS=LZW", "BLOCKXSIZE=512", "BLOCKYSIZE=512"]
          geotransform := rds.transform
          projection := rds.projection
          bandData := g
          bandDescription := "NDVI"
          noDataValue := -9999 } := by
  rcases hpair : Ndvi.compute_ndvi s rds.band1 nds.band1 with ⟨s2, e⟩
  rw [hpair] at hc
  have he : e = Except.ok g := hc
  subst he
  simp only [Ndvi.main, hrp, hnp, Ndvi.read_band, hro, hno, hpair, Ndvi.write_cog,
    if_true]

/-- Claim C8 witness: a concrete run on a two-file tree in which the two
source datasets carry different spatial metadata; the written dataset
carries the red band's metadata. -/
theorem c8_main_uses_red_metadata_witness :
    (Ndvi.find_band ["d/r/T_B04_10m.jp2", "d/r/T_B08_10m.jp2"] "d" "B04_10m.jp2" =
      Except.ok ["d/r/T_B04_10m.jp2"]) ∧
    ((Ndvi.main ["d/r/T_B04_10m.jp2", "d/r/T_B08_10m.jp2"]
        (fun p => if p = "d/r/T_B04_10m.jp2" then
            some (SrcDataset.mk [[FVal.fin 100]] (0, 10, 0, 0, 0, -10) "UTM33N")
          else if p = "d/r/T_B08_10m.jp2" then
            some (SrcDataset.mk [[FVal.fin 300]] (7, 7, 7, 7, 7, 7) "OTHER")
          else none)
        true npDefault "d" "out/ndvi.tif").2 =
      Except.ok
        { path := "out/ndvi.tif"
          xsize := nCols [[FVal.fin (1/2)]]
          ysize := nRows [[FVal.fin (1/2)]]
          nBands := 1
          dtype := GDALDataType.GDT_Float32
          creationOptions := ["TILED=YES", "COMPRESS=LZW", "BLOCKXSIZE=512", "BLOCKYSIZE=512"]
          geotransform := (0, 10, 0, 0, 0, -10)
          projection := "UTM33N"
          bandData := [[FVal.fin (1/2)]]
          bandDescription := "NDVI"
          noDataValue := -9999 }) :=
  ⟨by decide,
   c8_main_uses_red_metadata
    ["d/r/T_B04_10m.jp2", "d/r/T_B08_10m.jp2"]
    (fun p => if p = "d/r/T_B04_10m.jp2" then
        some (SrcDataset.mk [[FVal.fin 100]] (0, 10, 0, 0, 0, -10) "UTM33N")
      else if p = "d/r/T_B08_10m.jp2" then
        some (SrcDataset.mk [[FVal.fin 300]] (7, 7, 7, 7, 7, 7) "OTHER")
      else none)
    npDefault ["d/r/T_B04_10m.jp2"] ["d/r/T_B08_10m.jp2"]
    (SrcDataset.mk [[FVal.fin 100]] (0, 10, 0, 0, 0, -10) "UTM33N")
    (SrcDataset.mk [[FVal.fin 300]] (7, 7, 7, 7, 7, 7) "OTHER")
    [[FVal.fin (1/2)]] "d" "out/ndvi.tif"
    (by decide) (by decide) (by simp) (by simp)
    (by norm_num [Ndvi.compute_ndvi, nRows, nCols, broadcastCompatible, getPix, bIdx,
      FVal.div, FVal.sub, FVal.add, List.range_succ])⟩

/-- Claim C10: the four core functions of the two source variants are
pairwise behaviourally equal on every input, and the CLI variant's main is
the other variant's main run on the output directory with the fixed
filename s2-2a-10m-ndvi.tif appended. -/
theorem c10_variants_behaviourally_equal (fs : List String)
    (gdalOpen : String → Option SrcDataset) (driverAvailable : Bool)
    (s : NpErrState) (directory pattern band_path : String)
    (red nir ndvi : Grid) (transform : GeoTransform)
    (projection safe_folder outdir : String) :
    NdviCli.find_band fs directory pattern = Ndvi.find_band fs directory pattern ∧
    NdviCli.read_band gdalOpen band_path = Ndvi.read_band gdalOpen band_path ∧
    NdviCli.compute_ndvi s red nir = Ndvi.compute_ndvi s red nir ∧
    NdviCli.write_cog driverAvailable ndvi transform projection outdir =
      Ndvi.write_cog driverAvailable ndvi transform projection outdir ∧
    NdviCli.main fs gdalOpen driverAvailable s safe_folder outdir =
      Ndvi.main fs gdalOpen driverAvailable s safe_folder
        (outdir ++ "/s2-2a-10m-ndvi.tif") :=
  ⟨rfl, rfl, rfl, rfl, rfl⟩
